import Mathlib

/-!
Verification of the MDC component-metadata cache and completion engine
(nuxt-content/vscode-mdc).

The repository source present under `src/` is the extension entry point
(`src/src/extension.ts`) together with its test harness; the modules
`component-metadata.ts` (MetadataSource / MetadataCache / RefreshCoordinator)
and `completion-providers.ts` (CompletionEngine) are consumed there but their
code is not included. Those parts are modelled from the specification
(spec.md §3–§5, §7), each such definition carrying a doc comment that says so;
the parts of `extension.ts` that the claims touch (the completion-provider
wrappers, the refresh command, and the activation gating in
`updateConfiguration`) are embedded directly from the source.

Concurrency model: the host runtime is single-threaded and cooperative
(spec §5): the only suspension point is inside MetadataSource's fetch, so
every cache operation between suspension points is one atomic step. We model
the system as a deterministic step function on a `World` that carries the
cache state, the current configuration fingerprint, the number of
MetadataSource fetch invocations so far, and the number of callers awaiting
the in-flight fetch. A `get` call either returns a snapshot immediately or
suspends (joining the single in-flight fetch); a `fetchComplete` event
resolves every waiter at once.
-/

/-- A component prop descriptor (spec §3): name, semantic type tag,
optional default value, required flag, optional description. -/
structure PropDescriptor where
  name : String
  type : String
  defaultValue : Option String := none
  required : Bool := false
  description : Option String := none
deriving DecidableEq, Repr

/-- A component descriptor (spec §3): name, ordered props, optional
description. -/
structure ComponentDescriptor where
  name : String
  props : List PropDescriptor
  description : Option String := none
deriving DecidableEq, Repr

/-- A catalog is an ordered sequence of component descriptors. -/
abbrev Catalog := List ComponentDescriptor

/-- An immutable metadata snapshot (spec §3): catalog, generation counter,
source fingerprint, fetch timestamp. -/
structure MetadataSnapshot where
  components : Catalog
  generation : Nat
  fingerprint : Nat
  timestamp : Nat
deriving DecidableEq, Repr

/-- The refresh-failure taxonomy (spec §7). All three are treated as one
"refresh failed" outcome by the cache. -/
inductive FetchErr
  | fetchError
  | parseError
  | timeoutError
deriving DecidableEq, Repr

/-- Modelled from the spec: `CacheState` (spec §3), owned exclusively by
MetadataCache — the currently-published snapshot (or none), the in-flight
fetch handle (here: whether one is in flight, and the fingerprint it was
started against), the stale mark set by `invalidate()`, and the last
recorded error. -/
structure CacheState where
  published : Option MetadataSnapshot
  inflight : Bool
  inflightFingerprint : Nat
  stale : Bool
  lastError : Option FetchErr
deriving DecidableEq, Repr

/-- The world: the cache state plus the current configuration fingerprint,
an instrumentation counter of MetadataSource fetch invocations, the number
of callers awaiting the in-flight fetch, and a clock for timestamps. -/
structure World where
  cache : CacheState
  fingerprint : Nat
  fetchCount : Nat
  waiters : Nat
  time : Nat
deriving DecidableEq, Repr

/-- The empty, never-populated world at startup (spec §3 lifecycle). -/
def emptyWorld : World :=
  { cache := { published := none, inflight := false, inflightFingerprint := 0,
               stale := false, lastError := none },
    fingerprint := 0, fetchCount := 0, waiters := 0, time := 0 }

/-- Generation of the currently published snapshot (0 when none has ever
been published). -/
def pubGen (w : World) : Nat :=
  match w.cache.published with
  | none => 0
  | some s => s.generation

/-- Modelled from the spec: starting a fetch through MetadataSource
(spec §4.2) — records the in-flight handle tagged with the fingerprint the
fetch was started against (spec §9, tagged-variant stale discard), counts
the MetadataSource invocation, and the starting caller awaits it. -/
def startFetch (w : World) : World :=
  { w with
    cache := { w.cache with inflight := true, inflightFingerprint := w.fingerprint },
    fetchCount := w.fetchCount + 1,
    waiters := w.waiters + 1 }

/-- Modelled from the spec: the synchronous prefix of `MetadataCache.get`
(spec §4.2), up to the first suspension point. Returns the updated world
and `some r` when the call returns immediately with `r`, or `none` when the
call suspended awaiting the (single) in-flight fetch.
`forceRefresh = false`: a valid (non-stale) snapshot is returned
immediately with no I/O; otherwise the caller joins an in-flight fetch if
one exists, else starts one. `forceRefresh = true`: always starts a fresh
fetch unless one is already in flight, in which case the caller awaits
that same fetch. -/
def getStart (force : Bool) (w : World) : World × Option (Option MetadataSnapshot) :=
  if force then
    if w.cache.inflight then
      ({ w with waiters := w.waiters + 1 }, none)
    else
      (startFetch w, none)
  else
    match w.cache.published with
    | some snap =>
      if w.cache.stale then
        if w.cache.inflight then
          ({ w with waiters := w.waiters + 1 }, none)
        else
          (startFetch w, none)
      else
        (w, some (some snap))
    | none =>
      if w.cache.inflight then
        ({ w with waiters := w.waiters + 1 }, none)
      else
        (startFetch w, none)

/-- Modelled from the spec: completion of the in-flight fetch (spec §4.2,
§4.4, §5). If the fingerprint the fetch was started against no longer
matches the current configuration, the result is discarded rather than
published. Otherwise, on success the new snapshot is published with
generation = previous + 1 and the error cleared; on failure the previous
snapshot stays published and unchanged and the error is recorded. All
waiters resolve with the (then-current) published snapshot. Returns the
updated world and the list of values delivered to the waiters. -/
def fetchComplete (outcome : Except FetchErr Catalog) (w : World) :
    World × List (Option MetadataSnapshot) :=
  if w.cache.inflight then
    if w.cache.inflightFingerprint = w.fingerprint then
      match outcome with
      | .ok cat =>
        let snap : MetadataSnapshot :=
          { components := cat, generation := pubGen w + 1,
            fingerprint := w.cache.inflightFingerprint, timestamp := w.time }
        ({ w with
           cache := { published := some snap, inflight := false,
                      inflightFingerprint := w.cache.inflightFingerprint,
                      stale := false, lastError := none },
           waiters := 0 },
         List.replicate w.waiters (some snap))
      | .error e =>
        ({ w with
           cache := { w.cache with inflight := false, lastError := some e },
           waiters := 0 },
         List.replicate w.waiters w.cache.published)
    else
      ({ w with cache := { w.cache with inflight := false }, waiters := 0 },
       List.replicate w.waiters w.cache.published)
  else
    (w, [])

/-- Modelled from the spec: `MetadataCache.invalidate()` (spec §4.2) —
marks the current snapshot stale without deleting it and without
fetching. -/
def invalidate (w : World) : World :=
  { w with cache := { w.cache with stale := true } }

/-- Modelled from the spec: RefreshCoordinator's reaction to a
configuration-origin change (spec §4.4) — calls `invalidate()` and resets
the source fingerprint so the next fetch uses the new origin. -/
def configChange (newFp : Nat) (w : World) : World :=
  { invalidate w with fingerprint := newFp }

/-- `invalidate()` iterated k times. -/
def invalidateN : Nat → World → World
  | 0, w => w
  | k + 1, w => invalidateN k (invalidate w)

/-- Atomic events of the single-threaded cooperative schedule. -/
inductive Event
  | getFalse
  | getTrue
  | complete (outcome : Except FetchErr Catalog)
  | inval
  | config (fp : Nat)
  | tick
deriving Repr

/-- One atomic step of the world (the output to callers is dropped). -/
def step (e : Event) (w : World) : World :=
  match e with
  | .getFalse => (getStart false w).1
  | .getTrue => (getStart true w).1
  | .complete o => (fetchComplete o w).1
  | .inval => invalidate w
  | .config fp => configChange fp w
  | .tick => { w with time := w.time + 1 }

/-- Run a list of events from a world. -/
def run (es : List Event) (w : World) : World :=
  es.foldl (fun w e => step e w) w

/-! ## CompletionEngine (spec §4.3)

The block-structure parser and the host document accessor are external
collaborators (spec §1, §6): the cursor context the engine consumes is the
information those collaborators report — whether the cursor sits at the
start of a component tag, which component block (if any) encloses the
cursor, and which prop names already appear in that block's prop region. -/

/-- Modelled from the spec: the cursor context a completion query receives
(spec §4.3, §6) — the collaborator-reported tag-start indication, the
enclosing block's tag name (none when the cursor is in no open block), and
the prop names already present in the prop region. -/
structure CompletionContext where
  atTagStart : Bool
  enclosingComponent : Option String
  presentProps : List String
deriving DecidableEq, Repr

/-- A completion candidate: label, detail annotation (description for
components, type hint for props), and the text inserted on accept. -/
structure CompletionItem where
  label : String
  detail : Option String
  insertText : String
deriving DecidableEq, Repr

/-- Render a component descriptor as a name-completion candidate,
annotated with its description (spec §4.3). -/
def renderComponent (c : ComponentDescriptor) : CompletionItem :=
  { label := c.name, detail := c.description, insertText := c.name }

/-- Render a prop descriptor as a prop-completion candidate, with its type
hint and, where present, a pre-filled default value (spec §4.3). -/
def renderProp (p : PropDescriptor) : CompletionItem :=
  { label := p.name, detail := some p.type,
    insertText :=
      match p.defaultValue with
      | some d => p.name ++ "=\"" ++ d ++ "\""
      | none => p.name }

/-- Modelled from the spec: the name-completion handler (spec §4.3) — when
the cursor context indicates the start of a component tag, one candidate
per ComponentDescriptor in catalog order, each annotated with its
description; otherwise (and on an empty catalog) an empty result set. A
pure function of (snapshot catalog, context). -/
def nameCompletion (catalog : Catalog) (ctx : CompletionContext) : List CompletionItem :=
  if ctx.atTagStart then catalog.map renderComponent else []

/-- Modelled from the spec: the prop-completion handler (spec §4.3) —
resolves the enclosing component via the block-structure collaborator,
looks up its descriptor in the catalog, and returns one candidate per
PropDescriptor in declaration order, excluding props already present in
the prop region; empty when there is no enclosing component or it is not
in the catalog. A pure function of (snapshot catalog, context). -/
def propCompletion (catalog : Catalog) (ctx : CompletionContext) : List CompletionItem :=
  match ctx.enclosingComponent with
  | none => []
  | some tag =>
    match catalog.find? (fun c => c.name == tag) with
    | none => []
    | some comp =>
      (comp.props.filter (fun p => !(ctx.presentProps.contains p.name))).map renderProp

/-! ## extension.ts (embedded from the source under src/) -/

/-- From `src/src/extension.ts` lines 195–201 / 209–215: the body of each
registered `provideCompletionItems` after awaiting
`getComponentMetadata()` — if the component list is missing or empty it
exits early (returns no result), otherwise it delegates to the handler
with the awaited components and the document/position context. -/
def provideCompletionItemsBody
    (handler : Catalog → CompletionContext → List CompletionItem)
    (mdcComponents : Option Catalog) (ctx : CompletionContext) :
    Option (List CompletionItem) :=
  match mdcComponents with
  | none => none
  | some comps =>
    if comps.isEmpty then none else some (handler comps ctx)

/-- What a refresh cycle surfaces to the user (spec §4.4, §7): a visible
error message, a debug-level log line only, or nothing. -/
inductive Surfaced
  | errorMessage
  | debugLog
  | silent
deriving DecidableEq, Repr

/-- Modelled from the spec: a full forced-refresh cycle as run by the
`mdc.refreshMetadata` command (`src/src/extension.ts` lines 233–235 call
`getComponentMetadata(true)`; the failure policy is spec §4.4/§7): start
`get(true)`, let the fetch complete with the given outcome, and on
failure surface a user-visible error message. -/
def forcedRefreshCycle (w : World) (outcome : Except FetchErr Catalog) :
    World × Surfaced :=
  let w1 := (getStart true w).1
  let w2 := (fetchComplete outcome w1).1
  match outcome with
  | .ok _ => (w2, .silent)
  | .error _ => (w2, .errorMessage)

/-- Modelled from the spec: a background/lazy refetch cycle triggered by
`get(false)` after invalidation (spec §7): failures are silently absorbed,
logged at debug level only. -/
def lazyRefetchCycle (w : World) (outcome : Except FetchErr Catalog) :
    World × Surfaced :=
  let w1 := (getStart false w).1
  let w2 := (fetchComplete outcome w1).1
  match outcome with
  | .ok _ => (w2, .silent)
  | .error _ => (w2, .debugLog)

/-- Outcome of the initial metadata fetch that gates registration in
`updateConfiguration`. -/
inductive InitialFetch
  | resolved
  | rejected (msg : String)
deriving DecidableEq, Repr

/-- The externally observable actions of the completions branch of
`updateConfiguration`. -/
structure ActivationOutcome where
  nameProviderRegistered : Bool
  propProviderRegistered : Bool
  refreshCommandRegistered : Bool
  errorMessageShown : Bool
  errorRethrown : Bool
deriving DecidableEq, Repr

/-- From `src/src/extension.ts` lines 186–246: the
`componentCompletionsEnabled` branch of `updateConfiguration`. When
enabled, `getComponentMetadata(true).then(...)` registers both completion
providers and the `mdc.refreshMetadata` command only after the initial
fetch resolves; `.catch(...)` shows an error message and re-throws, and
none of the registrations in the `.then` continuation run. When disabled,
none of this happens. -/
def completionsBranch (enabled : Bool) (initialFetch : InitialFetch) :
    ActivationOutcome :=
  if enabled then
    match initialFetch with
    | .resolved =>
      { nameProviderRegistered := true, propProviderRegistered := true,
        refreshCommandRegistered := true, errorMessageShown := false,
        errorRethrown := false }
    | .rejected _ =>
      { nameProviderRegistered := false, propProviderRegistered := false,
        refreshCommandRegistered := false, errorMessageShown := true,
        errorRethrown := true }
  else
    { nameProviderRegistered := false, propProviderRegistered := false,
      refreshCommandRegistered := false, errorMessageShown := false,
      errorRethrown := false }

/-- Modelled from the spec: the local lightweight prefix check (spec §4.3)
— the text of the cursor's line up to the cursor indicates the start of a
component tag when it ends with the `::` tag opener. -/
def tagStartCheck (lineToCursor : String) : Bool :=
  lineToCursor.data.reverse.take 2 == [':', ':']

/-! ## Concrete worlds and catalogs used by witnesses and examples -/

/-- A concrete world with one fetch in flight (a `get(true)` issued against
the empty cache). -/
def inflightWorld : World := step Event.getTrue emptyWorld

/-- A concrete world holding a published snapshot (the in-flight fetch of
`inflightWorld` completed successfully with an empty catalog). -/
def publishedWorld : World :=
  step (Event.complete (Except.ok [])) inflightWorld

/-- The snapshot `publishedWorld` publishes. -/
def snap0 : MetadataSnapshot :=
  { components := [], generation := 1, fingerprint := 0, timestamp := 0 }

/-- A concrete world where a published snapshot exists and a refetch
(started by `get(false)` after an `invalidate()`) is in flight. -/
def staleRefetchWorld : World :=
  step Event.getFalse (step Event.inval publishedWorld)

/-- The spec §8 example component: `{name:"callout",
props:[{name:"type", type:"enum"}, {name:"icon", type:"string"}]}`. -/
def calloutComp : ComponentDescriptor :=
  { name := "callout",
    props := [{ name := "type", type := "enum" },
              { name := "icon", type := "string" }] }

/-- The spec §8 example catalog for prop completion. -/
def calloutCatalog : Catalog := [calloutComp]

/-! ## Helper lemmas -/

/-- While a fetch is in flight, any `get` call joins it: neither the cache
state nor the fetch-invocation count changes. -/
theorem getStart_inflight_join (force : Bool) (w : World)
    (h : w.cache.inflight = true) :
    (getStart force w).1.cache = w.cache ∧
    (getStart force w).1.fetchCount = w.fetchCount := by
  unfold getStart
  cases force
  · cases hp : w.cache.published
    · simp [h, hp]
    · cases hs : w.cache.stale <;> simp [h, hp, hs]
  · simp [h]

/-- A run of `get(false)` events while a fetch is in flight leaves the
cache and the fetch count unchanged. -/
theorem run_getFalse_inflight (n : Nat) (w : World)
    (h : w.cache.inflight = true) :
    (run (List.replicate n Event.getFalse) w).cache = w.cache ∧
    (run (List.replicate n Event.getFalse) w).fetchCount = w.fetchCount := by
  induction n generalizing w with
  | zero => simp [run]
  | succ n ih =>
    rw [List.replicate_succ]
    have hj := getStart_inflight_join false w h
    have hstep : run (Event.getFalse :: List.replicate n Event.getFalse) w
        = run (List.replicate n Event.getFalse) (step Event.getFalse w) := rfl
    rw [hstep]
    have h2 : (step Event.getFalse w).cache.inflight = true := by
      show (getStart false w).1.cache.inflight = true
      rw [hj.1]; exact h
    have := ih (step Event.getFalse w) h2
    refine ⟨?_, ?_⟩
    · rw [this.1]; exact hj.1
    · rw [this.2]; exact hj.2

/-- The published snapshot is untouched by the synchronous part of any
`get` call. -/
theorem getStart_published (force : Bool) (w : World) :
    (getStart force w).1.cache.published = w.cache.published := by
  unfold getStart startFetch
  cases force
  · cases hp : w.cache.published
    · cases hi : w.cache.inflight <;> simp [hp, hi]
    · cases hs : w.cache.stale
      · simp [hp, hs]
      · cases hi : w.cache.inflight <;> simp [hp, hs, hi]
  · cases hi : w.cache.inflight <;> simp [hi]

/-- Completing a fetch never lowers the published generation. -/
theorem fetchComplete_pubGen_le (o : Except FetchErr Catalog) (w : World) :
    pubGen w ≤ pubGen (fetchComplete o w).1 := by
  unfold fetchComplete
  cases hi : w.cache.inflight
  · simp
  · cases hf : decide (w.cache.inflightFingerprint = w.fingerprint)
    · simp only [Bool.false_eq_true, decide_eq_false_iff_not] at hf
      simp [hf, pubGen]
    · simp only [decide_eq_true_eq] at hf
      cases o with
      | ok cat => simp [hf, pubGen]
      | error e => simp [hf, pubGen]

/-- No single step lowers the published generation. -/
theorem step_pubGen_le (e : Event) (w : World) : pubGen w ≤ pubGen (step e w) := by
  cases e with
  | getFalse =>
    show pubGen w ≤ pubGen (getStart false w).1
    unfold pubGen; rw [getStart_published]
  | getTrue =>
    show pubGen w ≤ pubGen (getStart true w).1
    unfold pubGen; rw [getStart_published]
  | complete o => exact fetchComplete_pubGen_le o w
  | inval => exact le_refl _
  | config fp => exact le_refl _
  | tick => exact le_refl _

/-- Along any run, the published generation is monotone. -/
theorem run_pubGen_le (es : List Event) (w : World) :
    pubGen w ≤ pubGen (run es w) := by
  induction es generalizing w with
  | nil => simp [run]
  | cons e es ih =>
    have h1 : run (e :: es) w = run es (step e w) := rfl
    rw [h1]
    exact le_trans (step_pubGen_le e w) (ih (step e w))

/-! ## Claims -/

/-- C1: Single-flight fetching — for every number N of concurrent
`get(false)` calls against an empty (never-populated) cache,
MetadataSource's fetch is invoked exactly once; a `get(true)` issued while
that fetch is in flight joins it rather than starting a second one; and no
`get` call (forced or not) made while a fetch is in flight ever starts
another, so at most one fetch is in flight at any time. -/
theorem single_flight_C1 :
    (∀ n : Nat, (run (List.replicate (n + 1) Event.getFalse) emptyWorld).fetchCount = 1) ∧
    (∀ n : Nat,
      (run (List.replicate (n + 1) Event.getFalse ++ [Event.getTrue])
          emptyWorld).fetchCount = 1) ∧
    (∀ (force : Bool) (w : World), w.cache.inflight = true →
      (getStart force w).1.fetchCount = w.fetchCount ∧
      (getStart force w).1.cache.inflight = true) := by
  have hw1 : (step Event.getFalse emptyWorld).cache.inflight = true := by decide
  have hw1c : (step Event.getFalse emptyWorld).fetchCount = 1 := by decide
  have key : ∀ n : Nat,
      (run (List.replicate (n + 1) Event.getFalse) emptyWorld).cache
        = (step Event.getFalse emptyWorld).cache ∧
      (run (List.replicate (n + 1) Event.getFalse) emptyWorld).fetchCount = 1 := by
    intro n
    have h1 : run (List.replicate (n + 1) Event.getFalse) emptyWorld
        = run (List.replicate n Event.getFalse) (step Event.getFalse emptyWorld) := by
      rw [List.replicate_succ]; rfl
    rw [h1]
    have := run_getFalse_inflight n (step Event.getFalse emptyWorld) hw1
    exact ⟨this.1, by rw [this.2]; exact hw1c⟩
  refine ⟨fun n => (key n).2, ?_, ?_⟩
  · intro n
    have h2 : run (List.replicate (n + 1) Event.getFalse ++ [Event.getTrue]) emptyWorld
        = step Event.getTrue (run (List.replicate (n + 1) Event.getFalse) emptyWorld) := by
      unfold run
      rw [List.foldl_append]
      rfl
    rw [h2]
    have hk := key n
    have hinf : (run (List.replicate (n + 1) Event.getFalse) emptyWorld).cache.inflight
        = true := by rw [hk.1]; exact hw1
    have hj := getStart_inflight_join true
      (run (List.replicate (n + 1) Event.getFalse) emptyWorld) hinf
    show (getStart true (run (List.replicate (n + 1) Event.getFalse) emptyWorld)).1.fetchCount = 1
    rw [hj.2]; exact hk.2
  · intro force w h
    have hj := getStart_inflight_join force w h
    exact ⟨hj.2, by rw [hj.1]; exact h⟩

/-- Witness for C1 at N = 3 concurrent `get(false)` calls, then a
`get(true)` while the fetch is in flight. -/
theorem single_flight_C1_witness :
    (run (List.replicate 3 Event.getFalse) emptyWorld).fetchCount = 1 ∧
    (run (List.replicate 3 Event.getFalse ++ [Event.getTrue]) emptyWorld).fetchCount = 1 ∧
    ((getStart true (step Event.getFalse emptyWorld)).1.fetchCount
        = (step Event.getFalse emptyWorld).fetchCount ∧
     (getStart true (step Event.getFalse emptyWorld)).1.cache.inflight = true) :=
  ⟨single_flight_C1.1 2, single_flight_C1.2.1 2,
   single_flight_C1.2.2 true (step Event.getFalse emptyWorld) (by decide)⟩

/-- C2: Generation monotonicity — along every run the published generation
never decreases; a successful (fingerprint-matching) fetch completion
publishes generation = previous + 1, hence strictly increasing across
successful fetches; every value a read delivers is the then-current
published snapshot (immediate `get(false)` returns, and waiter
resolutions at fetch completion alike), so no read ever returns a
generation below one already published; and after a successful forced
refresh, `get(false)` returns a snapshot whose generation strictly
exceeds the prior one. -/
theorem generation_monotone_C2 :
    (∀ (es : List Event) (w : World), pubGen w ≤ pubGen (run es w)) ∧
    (∀ (w : World) (cat : Catalog), w.cache.inflight = true →
      w.cache.inflightFingerprint = w.fingerprint →
      pubGen (fetchComplete (Except.ok cat) w).1 = pubGen w + 1) ∧
    (∀ (w : World) (r : Option MetadataSnapshot),
      (getStart false w).2 = some r → r = w.cache.published) ∧
    (∀ (o : Except FetchErr Catalog) (w : World) (r : Option MetadataSnapshot),
      r ∈ (fetchComplete o w).2 → r = (fetchComplete o w).1.cache.published) ∧
    (∀ (w : World) (cat : Catalog), w.cache.inflight = false →
      ∃ snap,
        (getStart false
            (fetchComplete (Except.ok cat) ((getStart true w).1)).1).2
          = some (some snap) ∧
        pubGen w < snap.generation) := by
  refine ⟨run_pubGen_le, ?_, ?_, ?_, ?_⟩
  · intro w cat h hf
    simp [fetchComplete, h, hf, pubGen]
  · intro w r h
    unfold getStart at h
    cases hp : w.cache.published with
    | none =>
      rw [hp] at h
      cases hi : w.cache.inflight <;> simp [hi] at h
    | some snap =>
      rw [hp] at h
      cases hs : w.cache.stale
      · simp [hs] at h
        simp [← h]
      · cases hi : w.cache.inflight <;> simp [hs, hi] at h
  · intro o w r h
    unfold fetchComplete at h ⊢
    cases hi : w.cache.inflight
    · simp [hi] at h
    · rw [hi] at h
      by_cases hf : w.cache.inflightFingerprint = w.fingerprint
      · rw [if_pos hf] at h
        cases o with
        | ok cat =>
          simp only [if_true] at h
          have := List.eq_of_mem_replicate h
          simp [hi, hf, this]
        | error e =>
          simp only [if_true] at h
          have := List.eq_of_mem_replicate h
          simp [hi, hf, this]
      · rw [if_neg hf] at h
        have := List.eq_of_mem_replicate h
        simp [hi, hf, this]
  · intro w cat h
    refine ⟨{ components := cat, generation := pubGen w + 1,
              fingerprint := w.fingerprint, timestamp := w.time }, ?_, ?_⟩
    · simp [getStart, h, startFetch, fetchComplete, pubGen]
    · exact Nat.lt_succ_self _

/-- Witness for C2 at concrete worlds: a successful completion bumps the
generation from 0 to 1; reads deliver the current published snapshot; and
a forced refresh from the empty world makes `get(false)` return
generation 1 > 0. -/
theorem generation_monotone_C2_witness :
    pubGen (fetchComplete (Except.ok ([] : Catalog)) inflightWorld).1
      = pubGen inflightWorld + 1 ∧
    (some snap0 : Option MetadataSnapshot) = publishedWorld.cache.published ∧
    ((none : Option MetadataSnapshot)
      = (fetchComplete (Except.error FetchErr.fetchError) inflightWorld).1.cache.published) ∧
    (∃ snap,
      (getStart false
          (fetchComplete (Except.ok ([] : Catalog)) ((getStart true emptyWorld).1)).1).2
        = some (some snap) ∧
      pubGen emptyWorld < snap.generation) :=
  ⟨generation_monotone_C2.2.1 inflightWorld [] (by decide) (by decide),
   generation_monotone_C2.2.2.1 publishedWorld (some snap0) (by decide),
   generation_monotone_C2.2.2.2.1 (Except.error FetchErr.fetchError) inflightWorld none
     (by decide),
   generation_monotone_C2.2.2.2.2 emptyWorld [] (by decide)⟩

/-- C3: Fetch-failure atomicity — when the in-flight fetch (started
against the current fingerprint) fails with any of the three errors, the
previously published snapshot (possibly none) remains published and
unchanged, the error is recorded in the cache state, and every suspended
`get(false)`/`get(true)` caller resolves with that previous snapshot; the
model's `get` resolves with a value and never propagates an exception. -/
theorem fetch_failure_atomic_C3 :
    ∀ (w : World) (prev : Option MetadataSnapshot) (e : FetchErr),
      w.cache.published = prev →
      w.cache.inflight = true →
      w.cache.inflightFingerprint = w.fingerprint →
      (fetchComplete (Except.error e) w).1.cache.published = prev ∧
      (fetchComplete (Except.error e) w).1.cache.lastError = some e ∧
      ∀ r ∈ (fetchComplete (Except.error e) w).2, r = prev := by
  intro w prev e hp hi hf
  refine ⟨?_, ?_, ?_⟩
  · simp [fetchComplete, hi, hf, hp]
  · simp [fetchComplete, hi, hf]
  · intro r hr
    simp only [fetchComplete, hi, if_true, if_pos hf] at hr
    rw [← hp]
    exact List.eq_of_mem_replicate hr

/-- Witness for C3: from a world holding snapshot `snap0` with a refetch
in flight, a timeout failure leaves `snap0` published, records the error,
and delivers `snap0` to the suspended caller. -/
theorem fetch_failure_atomic_C3_witness :
    (fetchComplete (Except.error FetchErr.timeoutError) staleRefetchWorld).1.cache.published
      = some snap0 ∧
    (fetchComplete (Except.error FetchErr.timeoutError) staleRefetchWorld).1.cache.lastError
      = some FetchErr.timeoutError ∧
    (some snap0 : Option MetadataSnapshot) = some snap0 := by
  have h := fetch_failure_atomic_C3 staleRefetchWorld (some snap0) FetchErr.timeoutError
    (by decide) (by decide) (by decide)
  exact ⟨h.1, h.2.1, h.2.2 (some snap0) (by decide)⟩

/-- C4: Invalidation collapse — `invalidate()` marks the snapshot stale
without deleting it and performs no fetch; k ≥ 1 successive `invalidate()`
calls leave the world exactly as one call does; the next `get(false)`
against the invalidated (idle) cache then starts exactly one refetch; and
any further `get(false)` while that refetch is in flight starts none. -/
theorem invalidate_collapse_C4 :
    (∀ w : World,
      (invalidate w).cache.published = w.cache.published ∧
      (invalidate w).fetchCount = w.fetchCount ∧
      (invalidate w).cache.stale = true) ∧
    (∀ (k : Nat) (w : World), invalidateN (k + 1) w = invalidate w) ∧
    (∀ (k : Nat) (w : World) (snap : MetadataSnapshot),
      w.cache.published = some snap → w.cache.inflight = false →
      (getStart false (invalidateN (k + 1) w)).1.fetchCount = w.fetchCount + 1 ∧
      (getStart false (invalidateN (k + 1) w)).1.cache.inflight = true) ∧
    (∀ w : World, w.cache.inflight = true →
      (getStart false w).1.fetchCount = w.fetchCount) := by
  have hidem : ∀ w : World, invalidate (invalidate w) = invalidate w := by
    intro w; simp [invalidate]
  have hcollapse : ∀ (k : Nat) (w : World), invalidateN (k + 1) w = invalidate w := by
    intro k
    induction k with
    | zero => intro w; rfl
    | succ k ih =>
      intro w
      have h1 : invalidateN (k + 2) w = invalidateN (k + 1) (invalidate w) := rfl
      rw [h1, ih (invalidate w), hidem]
  refine ⟨?_, hcollapse, ?_, ?_⟩
  · intro w; exact ⟨rfl, rfl, rfl⟩
  · intro k w snap hp hi
    rw [hcollapse k w]
    simp [getStart, invalidate, startFetch, hp, hi]
  · intro w h
    exact (getStart_inflight_join false w h).2

/-- Witness for C4: three `invalidate()` calls against the world holding
`snap0` collapse to one, and the next `get(false)` starts exactly one
refetch (fetch count 1 → 2); a `get(false)` during the in-flight fetch
starts none. -/
theorem invalidate_collapse_C4_witness :
    ((invalidate publishedWorld).cache.published = publishedWorld.cache.published ∧
     (invalidate publishedWorld).fetchCount = publishedWorld.fetchCount ∧
     (invalidate publishedWorld).cache.stale = true) ∧
    invalidateN 3 publishedWorld = invalidate publishedWorld ∧
    ((getStart false (invalidateN 3 publishedWorld)).1.fetchCount
        = publishedWorld.fetchCount + 1 ∧
     (getStart false (invalidateN 3 publishedWorld)).1.cache.inflight = true) ∧
    (getStart false inflightWorld).1.fetchCount = inflightWorld.fetchCount :=
  ⟨invalidate_collapse_C4.1 publishedWorld,
   invalidate_collapse_C4.2.1 2 publishedWorld,
   invalidate_collapse_C4.2.2.1 2 publishedWorld snap0 (by decide) (by decide),
   invalidate_collapse_C4.2.2.2 inflightWorld (by decide)⟩

/-- C5: Stale-fingerprint discard — if, when the in-flight fetch
completes, the fingerprint it was started against no longer equals the
current configuration's fingerprint, its result is discarded whatever the
outcome: nothing is published (the published snapshot is exactly what it
was) and the waiters are resolved with the unchanged previous snapshot. -/
theorem stale_fingerprint_discard_C5 :
    ∀ (w : World) (o : Except FetchErr Catalog),
      w.cache.inflightFingerprint ≠ w.fingerprint →
      (fetchComplete o w).1.cache.published = w.cache.published ∧
      ∀ r ∈ (fetchComplete o w).2, r = w.cache.published := by
  intro w o h
  cases hi : w.cache.inflight
  · refine ⟨by simp [fetchComplete, hi], ?_⟩
    intro r hr
    simp [fetchComplete, hi] at hr
  · refine ⟨by simp [fetchComplete, hi, h], ?_⟩
    intro r hr
    simp only [fetchComplete, hi, if_true, if_neg h] at hr
    exact List.eq_of_mem_replicate hr

/-- Witness for C5: a fetch started against fingerprint 0, with the
configuration changed to fingerprint 1 before completion, has its
successful result discarded — the published snapshot stays none. -/
theorem stale_fingerprint_discard_C5_witness :
    (fetchComplete
        (Except.ok [{ name := "stale", props := [] }])
        (configChange 1 inflightWorld)).1.cache.published
      = (configChange 1 inflightWorld).cache.published :=
  (stale_fingerprint_discard_C5 (configChange 1 inflightWorld)
    (Except.ok [{ name := "stale", props := [] }]) (by decide)).1

/-- Taking the labels of the rendered not-yet-present props equals
filtering the prop names directly: candidates are the component's prop
names in declaration order minus those already present. -/
theorem filter_render_labels (present : List String) (props : List PropDescriptor) :
    ((props.filter (fun p => !(present.contains p.name))).map renderProp).map
        CompletionItem.label
      = (props.map PropDescriptor.name).filter (fun n => !(present.contains n)) := by
  induction props with
  | nil => rfl
  | cons p ps ih =>
    simp only [List.map_map] at ih ⊢
    by_cases h : p.name ∈ present
    · simpa [List.filter_cons, h] using ih
    · simpa [List.filter_cons, h, renderProp] using ih

/-- C6: Name-completion correctness — whenever the cursor context
indicates the start of a component tag, name-completion returns exactly
one candidate per ComponentDescriptor, in catalog order, each rendered
with the component's name as label and its description as annotation; in
particular, for the catalog `[{name:"callout", props:[]}]` and the line
`"::"` with the cursor immediately after, it returns exactly one
candidate named `callout`. -/
theorem name_completion_C6 :
    (∀ (catalog : Catalog) (ctx : CompletionContext), ctx.atTagStart = true →
      nameCompletion catalog ctx = catalog.map renderComponent) ∧
    (∀ c : ComponentDescriptor,
      (renderComponent c).label = c.name ∧
      (renderComponent c).detail = c.description) ∧
    nameCompletion [{ name := "callout", props := [] }]
        { atTagStart := tagStartCheck "::", enclosingComponent := none,
          presentProps := [] }
      = [{ label := "callout", detail := none, insertText := "callout" }] := by
  refine ⟨?_, ?_, ?_⟩
  · intro catalog ctx h
    simp [nameCompletion, h]
  · intro c
    exact ⟨rfl, rfl⟩
  · decide

/-- Witness for C6: the general part applied to the callout catalog and a
tag-start context. -/
theorem name_completion_C6_witness :
    nameCompletion calloutCatalog
        { atTagStart := true, enclosingComponent := none, presentProps := [] }
      = calloutCatalog.map renderComponent :=
  name_completion_C6.1 calloutCatalog
    { atTagStart := true, enclosingComponent := none, presentProps := [] } rfl

/-- C7: Prop-completion correctness — with no enclosing component, or an
enclosing component not in the catalog, prop-completion returns the empty
result set; when the enclosing component resolves to a descriptor, the
candidates are exactly that component's prop names in declaration order
with the props already present in the block's prop region excluded, each
candidate carrying the prop's type hint and, where present, a pre-filled
default value; the spec §8 example returns `["type", "icon"]`, and
`["icon"]` once `type` is already present. -/
theorem prop_completion_C7 :
    (∀ (catalog : Catalog) (ctx : CompletionContext),
      ctx.enclosingComponent = none → propCompletion catalog ctx = []) ∧
    (∀ (catalog : Catalog) (ctx : CompletionContext) (tag : String),
      ctx.enclosingComponent = some tag →
      catalog.find? (fun c => c.name == tag) = none →
      propCompletion catalog ctx = []) ∧
    (∀ (catalog : Catalog) (ctx : CompletionContext) (tag : String)
        (comp : ComponentDescriptor),
      ctx.enclosingComponent = some tag →
      catalog.find? (fun c => c.name == tag) = some comp →
      (propCompletion catalog ctx).map CompletionItem.label
        = (comp.props.map PropDescriptor.name).filter
            (fun n => !(ctx.presentProps.contains n))) ∧
    (∀ p : PropDescriptor,
      (renderProp p).detail = some p.type ∧
      ∀ d : String, p.defaultValue = some d →
        (renderProp p).insertText = p.name ++ "=\"" ++ d ++ "\"") ∧
    (propCompletion calloutCatalog
        { atTagStart := false, enclosingComponent := some "callout",
          presentProps := [] }).map CompletionItem.label = ["type", "icon"] ∧
    (propCompletion calloutCatalog
        { atTagStart := false, enclosingComponent := some "callout",
          presentProps := ["type"] }).map CompletionItem.label = ["icon"] := by
  refine ⟨?_, ?_, ?_, ?_, by decide, by decide⟩
  · intro catalog ctx h
    simp [propCompletion, h]
  · intro catalog ctx tag h hf
    simp [propCompletion, h, hf]
  · intro catalog ctx tag comp h hf
    simp only [propCompletion, h, hf]
    exact filter_render_labels ctx.presentProps comp.props
  · intro p
    refine ⟨rfl, ?_⟩
    intro d hd
    simp [renderProp, hd]

/-- Witness for C7: the hypothesis-bearing parts applied to the spec §8
catalog — no enclosing component yields the empty result, and with `type`
already present the labels are the filtered prop names of `callout`. -/
theorem prop_completion_C7_witness :
    propCompletion calloutCatalog
        { atTagStart := false, enclosingComponent := none, presentProps := [] }
      = [] ∧
    (propCompletion calloutCatalog
        { atTagStart := false, enclosingComponent := some "nope",
          presentProps := [] }) = [] ∧
    (propCompletion calloutCatalog
        { atTagStart := false, enclosingComponent := some "callout",
          presentProps := ["type"] }).map CompletionItem.label
      = (calloutComp.props.map PropDescriptor.name).filter
          (fun n => !((["type"] : List String).contains n)) :=
  ⟨prop_completion_C7.1 calloutCatalog
      { atTagStart := false, enclosingComponent := none, presentProps := [] } rfl,
   prop_completion_C7.2.1 calloutCatalog
      { atTagStart := false, enclosingComponent := some "nope", presentProps := [] }
      "nope" rfl (by decide),
   prop_completion_C7.2.2.1 calloutCatalog
      { atTagStart := false, enclosingComponent := some "callout",
        presentProps := ["type"] }
      "callout" calloutComp rfl (by decide)⟩

/-- C8: Empty-catalog degradation — on an empty catalog both completion
handlers return the empty result set (they are total functions, so no
error is raised); the registered provider bodies from `extension.ts` exit
early with no result when the awaited component list is missing or empty;
and a `get(false)` read against a valid published snapshot returns it with
the world unchanged, so no MetadataSource fetch is triggered. -/
theorem empty_catalog_C8 :
    (∀ ctx : CompletionContext,
      nameCompletion [] ctx = [] ∧ propCompletion [] ctx = []) ∧
    (∀ (handler : Catalog → CompletionContext → List CompletionItem)
        (ctx : CompletionContext),
      provideCompletionItemsBody handler (some []) ctx = none ∧
      provideCompletionItemsBody handler none ctx = none) ∧
    (∀ (w : World) (snap : MetadataSnapshot),
      w.cache.published = some snap → w.cache.stale = false →
      (getStart false w).1 = w ∧ (getStart false w).2 = some (some snap)) := by
  refine ⟨?_, ?_, ?_⟩
  · intro ctx
    constructor
    · simp [nameCompletion]
    · cases h : ctx.enclosingComponent <;> simp [propCompletion, h]
  · intro handler ctx
    exact ⟨rfl, rfl⟩
  · intro w snap hp hs
    constructor <;> simp [getStart, hp, hs]

/-- Witness for C8: `publishedWorld` holds a published empty-catalog
snapshot; reading it with `get(false)` leaves the world (hence the fetch
count) unchanged and returns the snapshot, whose empty component list
makes the provider body and both handlers return empty. -/
theorem empty_catalog_C8_witness :
    (nameCompletion []
        { atTagStart := true, enclosingComponent := none, presentProps := [] } = [] ∧
     propCompletion []
        { atTagStart := true, enclosingComponent := none, presentProps := [] } = []) ∧
    (provideCompletionItemsBody nameCompletion (some [])
        { atTagStart := true, enclosingComponent := none, presentProps := [] } = none ∧
     provideCompletionItemsBody nameCompletion none
        { atTagStart := true, enclosingComponent := none, presentProps := [] } = none) ∧
    ((getStart false publishedWorld).1 = publishedWorld ∧
     (getStart false publishedWorld).2 = some (some snap0)) :=
  ⟨empty_catalog_C8.1
      { atTagStart := true, enclosingComponent := none, presentProps := [] },
   empty_catalog_C8.2.1 nameCompletion
      { atTagStart := true, enclosingComponent := none, presentProps := [] },
   empty_catalog_C8.2.2 publishedWorld snap0 (by decide) (by decide)⟩

/-- C9: Forced-refresh error surfacing — a forced-refresh cycle whose
fetch fails surfaces a user-visible error message (and a successful one
surfaces nothing visible); a background/lazy refetch cycle whose fetch
fails is logged at debug level only and never surfaces a user-visible
error message. -/
theorem refresh_error_surfacing_C9 :
    (∀ (w : World) (e : FetchErr),
      (forcedRefreshCycle w (Except.error e)).2 = Surfaced.errorMessage) ∧
    (∀ (w : World) (cat : Catalog),
      (forcedRefreshCycle w (Except.ok cat)).2 = Surfaced.silent) ∧
    (∀ (w : World) (e : FetchErr),
      (lazyRefetchCycle w (Except.error e)).2 = Surfaced.debugLog ∧
      (lazyRefetchCycle w (Except.error e)).2 ≠ Surfaced.errorMessage) := by
  refine ⟨fun w e => rfl, fun w cat => rfl, fun w e => ⟨rfl, ?_⟩⟩
  simp [lazyRefetchCycle]

/-- C10: Activation gating — with
`enableComponentMetadataCompletions = true`, the two completion providers
and the `mdc.refreshMetadata` command are registered exactly when the
initial forced metadata fetch resolves; when it rejects, an error message
is shown, the error is re-thrown, and none of the three registrations
happens for that configuration cycle; with the setting disabled nothing
happens at all. -/
theorem activation_gating_C10 :
    completionsBranch true InitialFetch.resolved
      = { nameProviderRegistered := true, propProviderRegistered := true,
          refreshCommandRegistered := true, errorMessageShown := false,
          errorRethrown := false } ∧
    (∀ msg : String,
      completionsBranch true (InitialFetch.rejected msg)
        = { nameProviderRegistered := false, propProviderRegistered := false,
            refreshCommandRegistered := false, errorMessageShown := true,
            errorRethrown := true }) ∧
    (∀ f : InitialFetch,
      completionsBranch false f
        = { nameProviderRegistered := false, propProviderRegistered := false,
            refreshCommandRegistered := false, errorMessageShown := false,
            errorRethrown := false }) :=
  ⟨rfl, fun _ => rfl, fun _ => rfl⟩
